import Mathlib

/-!
Shallow embedding of `src/TinyG2/controller.cpp` (TinyG2 top-level controller):
the priority dispatch loop `_controller_HSM`, the connection/command state
machine and protocol-sniffing dispatcher `_command_dispatch`, the idlers
`_alarm_idler` / `_normal_idler`, and the planner backpressure gate
`_sync_to_planner`.

Modelling conventions:
  * `stat_t` results are an inductive `Stat`; only `STAT_EAGAIN` is scheduler
    relevant (the `DISPATCH` macro returns on it), `STAT_OK`/`STAT_NOOP`/other
    codes all fall through.
  * C byte buffers are `List Nat` of raw bytes; the C string read from a
    buffer is `bufStr` (bytes up to the first NUL), `strncpyBuf` follows C
    `strncpy` semantics exactly (no NUL terminator is written when the source
    string does not fit in `n` bytes).
  * External collaborators (hardware reset handler, switch polling, planner,
    serial transport, parsers, clock) are inputs for one poll, gathered in
    `Inputs`; calls the controller makes into collaborators are recorded as
    `Event`s.
  * Numeric constants that live in headers outside this file
    (`INPUT_BUFFER_LEN`, `SAVED_BUFFER_LEN`, `PLANNER_BUFFER_HEADROOM`,
    `LED_ALARM_TIMER`, `LED_NORMAL_TIMER`) are parameters in `Consts`; no
    theorem below depends on their concrete values.
-/

/-- `stat_t` return codes as far as the controller core distinguishes them:
`STAT_OK`, `STAT_EAGAIN` (the scheduling veto), `STAT_NOOP`, and any other
error/status code. -/
inductive Stat where
  | ok : Stat
  | eagain : Stat
  | noop : Stat
  | err : Nat → Stat
deriving DecidableEq, Repr

/-- The controller connection states `CONTROLLER_NOT_CONNECTED`,
`CONTROLLER_STARTUP`, `CONTROLLER_READY` of `cs.controller_state`. -/
inductive CtlState where
  | notConnected : CtlState
  | startup : CtlState
  | ready : CtlState
deriving DecidableEq, Repr

/-- `cfg.comm_mode`: sticky response serialization mode (`TEXT_MODE` /
`JSON_MODE`). -/
inductive CommMode where
  | textMode : CommMode
  | jsonMode : CommMode
deriving DecidableEq, Repr

/-- Buffer-size and timer constants defined in headers outside
`controller.cpp`. `INPUT_BUFFER_LEN` is the capacity of `cs.in_buf` (the
value `sizeof(cs.in_buf)` used by `read_line` and the `-8` truncation
bound). -/
structure Consts where
  INPUT_BUFFER_LEN : Nat
  SAVED_BUFFER_LEN : Nat
  PLANNER_BUFFER_HEADROOM : Nat
  LED_ALARM_TIMER : Nat
  LED_NORMAL_TIMER : Nat
deriving DecidableEq, Repr

/-- One poll's view of every external collaborator: transport liveness,
machine safety state, system tick clock, planner headroom, the per-tick
results of the externally implemented dispatch-table callbacks, the parser
statuses, and the `read_line` transport function (given the current buffer
and cursor, it yields its status and the buffer/cursor it leaves behind). -/
structure Inputs where
  usbConnected : Bool
  machineAlarmed : Bool
  sysTick : Nat
  plannerBuffersAvailable : Nat
  readLine : List Nat → Nat → Stat × List Nat × Nat
  textParserStat : Stat
  gcodeParserStat : Stat
  hardResetStat : Stat
  pollSwitchesStat : Stat
  feedholdStat : Stat
  planHoldStat : Stat
  motorPowerStat : Stat
  statusReportStat : Stat
  queueReportStat : Stat
  arcStat : Stat
  homingStat : Stat

/-- A call the controller makes into an external collaborator, recorded in
source order. -/
inductive Event where
  | queueFlush : Event
  | systemReadyMsg : Event
  | helpGeneral : Event
  | textResponse : Stat → List Nat → Event
  | textParserCall : List Nat → Event
  | jsonParserCall : List Nat → Event
  | gcodeParserCall : List Nat → Event
  | ledToggle : Event
deriving DecidableEq, Repr

/-- The fields of `controller_t cs` the run loop reads or writes. -/
structure ControllerState where
  linelen : Nat
  controller_state : CtlState
  in_buf : List Nat
  saved_buf : List Nat
  out_buf : List Nat
  led_timer : Nat
deriving DecidableEq, Repr

/-- The one field of the global `cfg` the dispatcher touches. -/
structure Cfg where
  comm_mode : CommMode
deriving DecidableEq, Repr

/-- C `toupper` on a byte: lowercase ASCII letters are folded to uppercase. -/
def toupper (c : Nat) : Nat :=
  if 97 ≤ c ∧ c ≤ 122 then c - 32 else c

/-- The C string stored in a raw byte buffer: the bytes before the first
NUL. -/
def bufStr (b : List Nat) : List Nat :=
  b.takeWhile (fun c => c ≠ 0)

/-- `buf[0]`: the first byte of a buffer (0 for the degenerate empty
buffer). -/
def firstByte (b : List Nat) : Nat := b.headD 0

/-- C `strncpy dest src n`: copies the source string byte by byte, stopping
after `n` bytes or at the source's NUL; when the source string is shorter
than `n` the remainder up to `n` is NUL-filled, when it is not shorter NO
terminator is written; bytes of `dest` from position `n` on are untouched. -/
def strncpyBuf (dest src : List Nat) (n : Nat) : List Nat :=
  let s := bufStr src
  if s.length < n then s ++ List.replicate (n - s.length) 0 ++ dest.drop n
  else s.take n ++ dest.drop n

/-- The bytes of the literal pieces of `sprintf(in_buf, "{\"gc\":\"%s\"}\n", s)`:
prefix `\x7b"gc":"` (7 bytes), then `s`, then `"\x7d` and newline (3 bytes). -/
def jsonWrap (s : List Nat) : List Nat :=
  [123, 34, 103, 99, 34, 58, 34] ++ s ++ [34, 125, 10]

/-- `sprintf(dest, "{\"gc\":\"%s\"}\n", s)`: writes the formatted string and
its NUL terminator at the start of `dest`, leaving later bytes untouched
(the model writes the full formatted text like `sprintf`, which performs no
bounds check). -/
def sprintfGcWrap (dest s : List Nat) : List Nat :=
  jsonWrap s ++ [0] ++ dest.drop ((jsonWrap s).length + 1)

/-- Number of bytes the Gcode-wrap path (`controller.cpp` lines 231-232)
writes into `cs.in_buf`: the wrapped string plus its NUL terminator, where
the wrapped payload is the string read back out of `out_buf` after
`strncpy(out_buf, in_buf, INPUT_BUFFER_LEN - 8)`. -/
def gcWrapBytesWritten (k : Consts) (cs : ControllerState) : Nat :=
  (jsonWrap (bufStr (strncpyBuf cs.out_buf cs.in_buf (k.INPUT_BUFFER_LEN - 8)))).length + 1

/-- Lines 202-238 of `controller.cpp`: save the input line into `saved_buf`,
clear the cursor, then sniff the first byte (case folded) and dispatch to the
matching protocol handler. Returns the updated `cs`, `cfg` and the
collaborator calls made, in order. -/
def dispatchLine (k : Consts) (inp : Inputs) (cs0 : ControllerState) (cfg : Cfg) :
    ControllerState × Cfg × List Event :=
  let cs := { cs0 with
    saved_buf := strncpyBuf cs0.saved_buf cs0.in_buf (k.SAVED_BUFFER_LEN - 1),
    linelen := 0 }
  let c := toupper (firstByte cs.in_buf)
  if c = 0 then
    (cs, cfg,
      if cfg.comm_mode ≠ CommMode.jsonMode then
        [Event.textResponse Stat.ok (bufStr cs.saved_buf)]
      else [])
  else if c = 72 then
    (cs, { comm_mode := CommMode.textMode },
      [Event.helpGeneral, Event.textResponse Stat.ok (bufStr cs.in_buf)])
  else if c = 36 ∨ c = 63 then
    (cs, { comm_mode := CommMode.textMode },
      [Event.textParserCall (bufStr cs.in_buf),
       Event.textResponse inp.textParserStat (bufStr cs.saved_buf)])
  else if c = 123 then
    (cs, { comm_mode := CommMode.jsonMode },
      [Event.jsonParserCall (bufStr cs.in_buf)])
  else
    if cfg.comm_mode = CommMode.jsonMode then
      let ob := strncpyBuf cs.out_buf cs.in_buf (k.INPUT_BUFFER_LEN - 8)
      let ib := sprintfGcWrap cs.in_buf (bufStr ob)
      ({ cs with out_buf := ob, in_buf := ib }, cfg,
        [Event.jsonParserCall (bufStr ib)])
    else
      (cs, cfg,
        [Event.gcodeParserCall (bufStr cs.in_buf),
         Event.textResponse inp.gcodeParserStat (bufStr cs.saved_buf)])

/-- `_command_dispatch` (lines 174-240): detect disconnection, run the
connection state machine, read a line when Ready, and dispatch it. Returns
the `stat_t` result, updated `cs` and `cfg`, and the collaborator calls. -/
def _command_dispatch (k : Consts) (inp : Inputs) (cs0 : ControllerState) (cfg : Cfg) :
    Stat × ControllerState × Cfg × List Event :=
  let cs := if inp.usbConnected = false then
    { cs0 with controller_state := CtlState.notConnected } else cs0
  if cs.controller_state = CtlState.ready then
    let r := inp.readLine cs.in_buf cs.linelen
    let cs := { cs with in_buf := r.2.1, linelen := r.2.2 }
    if r.1 ≠ Stat.ok then (Stat.ok, cs, cfg, [])
    else
      let d := dispatchLine k inp cs cfg
      (Stat.ok, d.1, d.2.1, d.2.2)
  else if cs.controller_state = CtlState.notConnected then
    if inp.usbConnected = false then (Stat.ok, cs, cfg, [])
    else
      let cs := { cs with controller_state := CtlState.startup }
      let d := dispatchLine k inp cs cfg
      (Stat.ok, d.1, d.2.1, [Event.queueFlush, Event.systemReadyMsg] ++ d.2.2)
  else if cs.controller_state = CtlState.startup then
    let cs := { cs with controller_state := CtlState.ready }
    let d := dispatchLine k inp cs cfg
    (Stat.ok, d.1, d.2.1, d.2.2)
  else
    (Stat.ok, cs, cfg, [])

/-- `_alarm_idler` (lines 253-262): `STAT_OK` when the machine is not
alarmed; otherwise toggle the indicator when the fast deadline passed and
return `STAT_EAGAIN`. -/
def _alarm_idler (k : Consts) (inp : Inputs) (cs : ControllerState) :
    Stat × ControllerState × List Event :=
  if inp.machineAlarmed = false then (Stat.ok, cs, [])
  else if inp.sysTick > cs.led_timer then
    (Stat.eagain, { cs with led_timer := inp.sysTick + k.LED_ALARM_TIMER },
      [Event.ledToggle])
  else (Stat.eagain, cs, [])

/-- `_normal_idler` (lines 264-271): toggle the indicator at the slow period,
always `STAT_OK`. -/
def _normal_idler (k : Consts) (inp : Inputs) (cs : ControllerState) :
    Stat × ControllerState × List Event :=
  if inp.sysTick > cs.led_timer then
    (Stat.ok, { cs with led_timer := inp.sysTick + k.LED_NORMAL_TIMER },
      [Event.ledToggle])
  else (Stat.ok, cs, [])

/-- `_limit_switch_handler` (lines 313-322): the body is commented out; it
returns `STAT_OK` unconditionally. -/
def _limit_switch_handler : Stat := Stat.ok

/-- `_sync_to_planner` (lines 302-308): `STAT_EAGAIN` when the planner's
available buffer count is below the headroom threshold, else `STAT_OK`. -/
def _sync_to_planner (k : Consts) (inp : Inputs) : Stat :=
  if inp.plannerBuffersAvailable < k.PLANNER_BUFFER_HEADROOM then Stat.eagain
  else Stat.ok

/-- The whole mutable state a dispatch-table entry can touch: `cs`, `cfg`,
and the log of collaborator calls made so far this tick. -/
structure World where
  cs : ControllerState
  cfg : Cfg
  log : List Event
deriving DecidableEq, Repr

/-- Names for the fourteen active (non-commented-out) `DISPATCH` lines of
`_controller_HSM`, lines 135-162. -/
inductive TaskId where
  | hardReset : TaskId
  | alarmIdler : TaskId
  | pollSwitches : TaskId
  | limitSwitch : TaskId
  | feedhold : TaskId
  | planHold : TaskId
  | motorPower : TaskId
  | statusReport : TaskId
  | queueReport : TaskId
  | arc : TaskId
  | homing : TaskId
  | syncPlanner : TaskId
  | commandDispatch : TaskId
  | normalIdler : TaskId
deriving DecidableEq, Repr

/-- The priority dispatch table of `_controller_HSM`, in source order. -/
def dispatchTable : List TaskId :=
  [TaskId.hardReset, TaskId.alarmIdler, TaskId.pollSwitches, TaskId.limitSwitch,
   TaskId.feedhold, TaskId.planHold, TaskId.motorPower, TaskId.statusReport,
   TaskId.queueReport, TaskId.arc, TaskId.homing, TaskId.syncPlanner,
   TaskId.commandDispatch, TaskId.normalIdler]

/-- The behavior of each dispatch-table entry for one tick: external
callbacks return the status the collaborator reports this tick and leave the
controller state alone; the four local continuations run their embedded
bodies. -/
def taskImpl (k : Consts) (inp : Inputs) : TaskId → World → Stat × World
  | TaskId.hardReset, w => (inp.hardResetStat, w)
  | TaskId.alarmIdler, w =>
      let r := _alarm_idler k inp w.cs
      (r.1, { w with cs := r.2.1, log := w.log ++ r.2.2 })
  | TaskId.pollSwitches, w => (inp.pollSwitchesStat, w)
  | TaskId.limitSwitch, w => (_limit_switch_handler, w)
  | TaskId.feedhold, w => (inp.feedholdStat, w)
  | TaskId.planHold, w => (inp.planHoldStat, w)
  | TaskId.motorPower, w => (inp.motorPowerStat, w)
  | TaskId.statusReport, w => (inp.statusReportStat, w)
  | TaskId.queueReport, w => (inp.queueReportStat, w)
  | TaskId.arc, w => (inp.arcStat, w)
  | TaskId.homing, w => (inp.homingStat, w)
  | TaskId.syncPlanner, w => (_sync_to_planner k inp, w)
  | TaskId.commandDispatch, w =>
      let r := _command_dispatch k inp w.cs w.cfg
      (r.1, { cs := r.2.1, cfg := r.2.2.1, log := w.log ++ r.2.2.2 })
  | TaskId.normalIdler, w =>
      let r := _normal_idler k inp w.cs
      (r.1, { w with cs := r.2.1, log := w.log ++ r.2.2 })

/-- The dispatch table instantiated with this tick's collaborator inputs. -/
def controllerTasks (k : Consts) (inp : Inputs) : List (World → Stat × World) :=
  dispatchTable.map (taskImpl k inp)

/-- One sweep of the `DISPATCH` macro chain over a task list: run the tasks
in order, recording each invoked task's result; stop right after the first
`STAT_EAGAIN` (the macro's early `return`). Yields the results of exactly
the invoked entries, in order, and the final state. -/
def hsmTrace {σ : Type} : List (σ → Stat × σ) → σ → List Stat × σ
  | [], s => ([], s)
  | t :: ts, s =>
      let r := t s
      if r.1 = Stat.eagain then ([r.1], r.2)
      else
        let rest := hsmTrace ts r.2
        (r.1 :: rest.1, rest.2)

/-- The per-tick result list: entry `K` of the task list was invoked this
tick exactly when `K < (tickResults ts s).length`, and its result is element
`K`. -/
def tickResults {σ : Type} (ts : List (σ → Stat × σ)) (s : σ) : List Stat :=
  (hsmTrace ts s).1

/-- `_controller_HSM` (lines 128-163): one iteration of the scheduler loop. -/
def _controller_HSM (k : Consts) (inp : Inputs) (w : World) : World :=
  (hsmTrace (controllerTasks k inp) w).2

/-- The connection-transition function the state machine of
`_command_dispatch` refines: `stay` unless the transport's liveness forces a
move; disconnection (sampled on every poll, whatever the state) re-enters
NotConnected, a connected NotConnected poll enters Startup, and a Startup
poll passes through to Ready. -/
def connTransitionSpec (connected : Bool) (s : CtlState) : CtlState :=
  match s, connected with
  | CtlState.notConnected, false => CtlState.notConnected
  | CtlState.notConnected, true => CtlState.startup
  | CtlState.startup, false => CtlState.notConnected
  | CtlState.startup, true => CtlState.ready
  | CtlState.ready, false => CtlState.notConnected
  | CtlState.ready, true => CtlState.ready

/-- Concrete constants for evaluation: a 32-byte input buffer, 16-byte saved
buffer, headroom 4 (the values are immaterial to the theorems). -/
def kW : Consts :=
  { INPUT_BUFFER_LEN := 32, SAVED_BUFFER_LEN := 16, PLANNER_BUFFER_HEADROOM := 4,
    LED_ALARM_TIMER := 100, LED_NORMAL_TIMER := 500 }

/-- A read_line that completes an empty line: the buffer it leaves starts
with NUL. -/
def emptyReadLine : List Nat → Nat → Stat × List Nat × Nat :=
  fun _ _ => (Stat.ok, [0, 0, 0, 0], 4)

/-- Quiet collaborators: connected, not alarmed, plenty of planner headroom,
no completed input line, every external callback reporting `STAT_OK` or
`STAT_NOOP`. -/
def inpW : Inputs :=
  { usbConnected := true, machineAlarmed := false, sysTick := 0,
    plannerBuffersAvailable := 10,
    readLine := fun b l => (Stat.err 1, b, l),
    textParserStat := Stat.ok, gcodeParserStat := Stat.ok,
    hardResetStat := Stat.ok, pollSwitchesStat := Stat.ok,
    feedholdStat := Stat.noop, planHoldStat := Stat.noop,
    motorPowerStat := Stat.ok, statusReportStat := Stat.noop,
    queueReportStat := Stat.noop, arcStat := Stat.noop, homingStat := Stat.noop }

/-- A Ready controller with empty buffers. -/
def csW : ControllerState :=
  { linelen := 0, controller_state := CtlState.ready,
    in_buf := List.replicate 32 0, saved_buf := List.replicate 16 0,
    out_buf := List.replicate 32 0, led_timer := 1000 }

/-- A quiet world in text mode. -/
def wW : World := { cs := csW, cfg := { comm_mode := CommMode.textMode }, log := [] }

/-- An alarmed input set: like `inpW` but the machine safety state reports
alarmed. -/
def inpAlarmW : Inputs := { inpW with machineAlarmed := true }

/-- A disconnected transport input set. -/
def inpDiscW : Inputs := { inpW with usbConnected := false }

/-- Inputs whose transport completes an empty line on every read. -/
def inpEmptyW : Inputs := { inpW with readLine := emptyReadLine }

/-- A controller sitting in the Startup state. -/
def csStartupW : ControllerState := { csW with controller_state := CtlState.startup }

/-- A controller sitting in the NotConnected state whose input buffer still
holds stale bytes (a Gcode-looking line). -/
def csNCW : ControllerState :=
  { csW with controller_state := CtlState.notConnected,
             in_buf := [103, 49, 102, 52, 48, 48, 120, 49, 48, 48] ++ List.replicate 22 0 }

/-- The text response mode. -/
def cfgTextW : Cfg := { comm_mode := CommMode.textMode }

/-- The JSON response mode. -/
def cfgJsonW : Cfg := { comm_mode := CommMode.jsonMode }

/-- The scenario line `g1f400x100` as bytes. -/
def glineW : List Nat := [103, 49, 102, 52, 48, 48, 120, 49, 48, 48]

/-- A Ready controller whose completed input line is `g1f400x100`. -/
def csGlineW : ControllerState := { csW with in_buf := glineW ++ List.replicate 22 0 }

/-- Constants with the input-buffer capacity 255 the firmware headers use. -/
def k255 : Consts :=
  { INPUT_BUFFER_LEN := 255, SAVED_BUFFER_LEN := 96, PLANNER_BUFFER_HEADROOM := 4,
    LED_ALARM_TIMER := 100, LED_NORMAL_TIMER := 500 }

/-- A Ready controller whose completed motion-command line is 246 bytes of
`g` - 246 is below both the 255-byte capacity and the 247-byte truncation
bound, yet the wrapped write is 257 bytes. -/
def csOverflowW : ControllerState :=
  { linelen := 0, controller_state := CtlState.ready,
    in_buf := List.replicate 246 103 ++ List.replicate 9 0,
    saved_buf := List.replicate 96 0,
    out_buf := List.replicate 255 0, led_timer := 1000 }

/-! ## Scheduler lemmas -/

/-- A blocked head entry ends the sweep at once. -/
theorem tickResults_cons_eagain {σ : Type} (t : σ → Stat × σ) (ts : List (σ → Stat × σ))
    (s : σ) (hr : (t s).1 = Stat.eagain) :
    tickResults (t :: ts) s = [Stat.eagain] := by
  simp [tickResults, hsmTrace, hr]

/-- A non-blocked head entry lets the sweep continue on the state it left. -/
theorem tickResults_cons_go {σ : Type} (t : σ → Stat × σ) (ts : List (σ → Stat × σ))
    (s : σ) (hr : (t s).1 ≠ Stat.eagain) :
    tickResults (t :: ts) s = (t s).1 :: tickResults ts (t s).2 := by
  simp [tickResults, hsmTrace, hr]

/-- Entry `K` runs exactly when every earlier entry ran without `STAT_EAGAIN`:
the invoked prefix of the table is as long as the table unless an `EAGAIN`
cut it short. -/
theorem tickResults_invoked_iff {σ : Type} (ts : List (σ → Stat × σ)) (s : σ) (K : Nat) :
    K < (tickResults ts s).length ↔
      K < ts.length ∧ Stat.eagain ∉ (tickResults ts s).take K := by
  induction ts generalizing s K with
  | nil => simp [tickResults, hsmTrace]
  | cons t ts ih =>
    by_cases hr : (t s).1 = Stat.eagain
    · rw [tickResults_cons_eagain t ts s hr]
      cases K with
      | zero => simp
      | succ j => simp [Nat.succ_lt_succ_iff]
    · rw [tickResults_cons_go t ts s hr]
      cases K with
      | zero => simp
      | succ j =>
        have hj := ih (t s).2 j
        simp only [List.length_cons, List.take_succ_cons, List.mem_cons,
          Nat.succ_lt_succ_iff, hj]
        constructor
        · intro h
          refine ⟨h.1, fun hmem => ?_⟩
          rcases hmem with h1 | h2
          · exact hr h1.symm
          · exact h.2 h2
        · intro h
          exact ⟨h.1, fun h2 => h.2 (Or.inr h2)⟩

/-- A `STAT_EAGAIN` at position `K` ends the sweep: the invoked prefix stops
right after it. -/
theorem tickResults_blocked_stops {σ : Type} (ts : List (σ → Stat × σ)) (s : σ) (K : Nat)
    (h : (tickResults ts s).get? K = some Stat.eagain) :
    (tickResults ts s).length = K + 1 := by
  induction ts generalizing s K with
  | nil => simp [tickResults, hsmTrace] at h
  | cons t ts ih =>
    by_cases hr : (t s).1 = Stat.eagain
    · rw [tickResults_cons_eagain t ts s hr] at h ⊢
      cases K with
      | zero => simp
      | succ j => simp at h
    · rw [tickResults_cons_go t ts s hr] at h ⊢
      cases K with
      | zero =>
        simp only [List.get?_cons_zero, Option.some_inj] at h
        exact absurd h hr
      | succ j =>
        have h' : (tickResults ts (t s).2).get? j = some Stat.eagain := by
          simpa using h
        simp [ih (t s).2 j h']

/-! ## Claim theorems -/

/-- Claim C1: scheduler veto semantics. In every iteration of
`_controller_HSM`, the dispatch-table entry at position `K` is invoked
(`K` indexes into this tick's result trace) if and only if every entry at a
position below `K` returned a non-`EAGAIN` result in that same iteration;
and if the entry at position `K` returns `EAGAIN`, no entry past `K` is
invoked in that iteration. The statement holds for every starting state `w`,
so in particular for any state left by prior iterations. -/
theorem scheduler_veto_semantics (k : Consts) (inp : Inputs) (w : World) (K : Nat) :
    (K < (tickResults (controllerTasks k inp) w).length ↔
       K < (controllerTasks k inp).length ∧
         Stat.eagain ∉ (tickResults (controllerTasks k inp) w).take K)
    ∧ ((tickResults (controllerTasks k inp) w).get? K = some Stat.eagain →
         (tickResults (controllerTasks k inp) w).length = K + 1) :=
  ⟨tickResults_invoked_iff (controllerTasks k inp) w K,
   tickResults_blocked_stops (controllerTasks k inp) w K⟩

/-- The alarm idler's status depends only on the machine safety state:
`EAGAIN` when alarmed, `OK` otherwise. -/
theorem alarm_idler_stat (k : Consts) (inp : Inputs) (cs : ControllerState) :
    (_alarm_idler k inp cs).1 =
      if inp.machineAlarmed = true then Stat.eagain else Stat.ok := by
  unfold _alarm_idler
  cases h : inp.machineAlarmed with
  | false => simp [h]
  | true =>
    by_cases h2 : inp.sysTick > cs.led_timer <;> simp [h, h2]

/-- Claim C3: while the machine is alarmed the alarm idler returns `EAGAIN`
on every poll (and `OK` when not alarmed), so in an alarmed tick the result
trace is exactly hard-reset handler followed by the alarm idler's `EAGAIN`:
no lower-priority entry (switch polling, reporting, command dispatch, normal
idler, at positions 2 and beyond) is invoked, while the hard-reset handler at
position 0 is invoked on every tick regardless. -/
theorem alarm_idler_blocks_lower_tasks (k : Consts) (inp : Inputs) (w : World)
    (ha : inp.machineAlarmed = true) (hr : inp.hardResetStat ≠ Stat.eagain) :
    tickResults (controllerTasks k inp) w = [inp.hardResetStat, Stat.eagain]
    ∧ (∀ inp2 : Inputs, ∀ cs : ControllerState, inp2.machineAlarmed = false →
         (_alarm_idler k inp2 cs).1 = Stat.ok)
    ∧ 0 < (tickResults (controllerTasks k inp) w).length := by
  have h1 : ∀ w1 : World, (taskImpl k inp TaskId.hardReset w1) = (inp.hardResetStat, w1) :=
    fun w1 => rfl
  have h2 : ∀ w1 : World, (taskImpl k inp TaskId.alarmIdler w1).1 = Stat.eagain := by
    intro w1
    have := alarm_idler_stat k inp w1.cs
    simp [taskImpl, this, ha]
  have htr : tickResults (controllerTasks k inp) w = [inp.hardResetStat, Stat.eagain] := by
    rw [show controllerTasks k inp =
      taskImpl k inp TaskId.hardReset :: taskImpl k inp TaskId.alarmIdler ::
        (dispatchTable.drop 2).map (taskImpl k inp) from rfl]
    rw [tickResults_cons_go _ _ _ (by rw [h1]; exact hr)]
    rw [h1]
    rw [tickResults_cons_eagain _ _ _ (h2 _)]
  refine ⟨htr, ?_, ?_⟩
  · intro inp2 cs hna
    rw [alarm_idler_stat k inp2 cs, hna]
    simp
  · rw [htr]
    simp

/-- Witness for C3 at a concrete alarmed tick: the trace is exactly
`[OK, EAGAIN]` (hard reset ran, alarm idler vetoed everything below). -/
theorem alarm_idler_blocks_lower_tasks_witness :
    tickResults (controllerTasks kW inpAlarmW) wW = [Stat.ok, Stat.eagain] :=
  (alarm_idler_blocks_lower_tasks kW inpAlarmW wW rfl (by decide)).1

/-- The protocol switch never touches the connection state. -/
theorem dispatchLine_state (k : Consts) (inp : Inputs) (cs : ControllerState) (cfg : Cfg) :
    (dispatchLine k inp cs cfg).1.controller_state = cs.controller_state := by
  by_cases h0 : toupper (firstByte cs.in_buf) = 0
  · simp [dispatchLine, h0]
  by_cases h72 : toupper (firstByte cs.in_buf) = 72
  · simp [dispatchLine, h0, h72]
  by_cases h36 : toupper (firstByte cs.in_buf) = 36 ∨ toupper (firstByte cs.in_buf) = 63
  · simp [dispatchLine, h0, h72, h36]
  by_cases h123 : toupper (firstByte cs.in_buf) = 123
  · simp [dispatchLine, h0, h72, h36, h123]
  by_cases hm : cfg.comm_mode = CommMode.jsonMode
  · simp [dispatchLine, h0, h72, h36, h123, hm]
  · simp [dispatchLine, h0, h72, h36, h123, hm]

/-- Claim C2 (amended): the connection state after one `_command_dispatch`
poll is a total, deterministic function of the current state and the
transport's liveness: NotConnected stays or moves to Startup when connected;
Startup moves to Ready when connected and falls back to NotConnected when the
transport reports disconnection (the disconnect check runs on every poll,
whatever the state); Ready stays or falls back to NotConnected. -/
theorem connection_transitions (k : Consts) (inp : Inputs)
    (cs : ControllerState) (cfg : Cfg) :
    (_command_dispatch k inp cs cfg).2.1.controller_state =
      connTransitionSpec inp.usbConnected cs.controller_state := by
  cases hc : inp.usbConnected with
  | false =>
    cases hs : cs.controller_state <;>
      simp [_command_dispatch, connTransitionSpec, hc, hs]
  | true =>
    cases hs : cs.controller_state with
    | notConnected =>
      simp [_command_dispatch, connTransitionSpec, hc, hs, dispatchLine_state]
    | startup =>
      simp [_command_dispatch, connTransitionSpec, hc, hs, dispatchLine_state]
    | ready =>
      simp [_command_dispatch, connTransitionSpec, hc, hs]
      split
      · simp [dispatchLine_state]
      · rfl

/-- Counterexample to claim C2 as stated: polling in Startup with a
disconnected transport moves the connection state to NotConnected, so from
Startup the set of reachable states is not only Ready. -/
theorem connection_startup_disconnect_cex :
    (_command_dispatch kW inpDiscW csStartupW { comm_mode := CommMode.textMode
      }).2.1.controller_state = CtlState.notConnected
    ∧ CtlState.notConnected ≠ CtlState.ready
    ∧ CtlState.notConnected ≠ CtlState.startup := by
  refine ⟨rfl, by decide, by decide⟩

/-- Counterexample to claim C5 as stated: the dispatch table has fourteen
entries, not twelve. -/
theorem dispatch_table_not_twelve :
    dispatchTable.length = 14 ∧ dispatchTable.length ≠ 12 := by decide

/-- Claim C5 (amended): `_controller_HSM` executes exactly the fourteen
specified entries in the fixed source order - hard-reset handler, alarm
idler, switch polling, limit-switch handler, feedhold sequencing, hold
planning, motor power timer, status report, queue report, arc continuation,
homing continuation, planner backpressure gate, command dispatch, normal
idler - with no other entries interleaved and no entry repeated. -/
theorem dispatch_table_order :
    dispatchTable =
      [TaskId.hardReset, TaskId.alarmIdler, TaskId.pollSwitches, TaskId.limitSwitch,
       TaskId.feedhold, TaskId.planHold, TaskId.motorPower, TaskId.statusReport,
       TaskId.queueReport, TaskId.arc, TaskId.homing, TaskId.syncPlanner,
       TaskId.commandDispatch, TaskId.normalIdler]
    ∧ dispatchTable.Nodup ∧ dispatchTable.length = 14 := by
  refine ⟨rfl, by decide, rfl⟩

/-- Claim C7: the backpressure gate returns `EAGAIN` exactly when the
planner's available buffer count is below the headroom threshold and `OK`
otherwise, and it is a pure poll: as a dispatch-table entry it leaves the
whole controller state untouched on every path. -/
theorem sync_to_planner_gate (k : Consts) (inp : Inputs) (w : World) :
    (_sync_to_planner k inp = Stat.eagain ↔
       inp.plannerBuffersAvailable < k.PLANNER_BUFFER_HEADROOM)
    ∧ (_sync_to_planner k inp = Stat.ok ↔
       ¬ inp.plannerBuffersAvailable < k.PLANNER_BUFFER_HEADROOM)
    ∧ (taskImpl k inp TaskId.syncPlanner w).2 = w := by
  unfold _sync_to_planner taskImpl
  by_cases h : inp.plannerBuffersAvailable < k.PLANNER_BUFFER_HEADROOM <;> simp [h]

/-! ## Buffer-string lemmas -/

/-- Every byte of a buffer's string part is non-NUL. -/
theorem bufStr_no_zero {b : List Nat} : ∀ c ∈ bufStr b, c ≠ 0 := by
  intro c hc
  have := List.mem_takeWhile_imp hc
  simpa using this

/-- Reading a buffer that holds a NUL-free prefix followed by a terminator
recovers exactly that prefix. -/
theorem bufStr_append_zero (s r : List Nat) :
    (∀ c ∈ s, c ≠ 0) → bufStr (s ++ 0 :: r) = s := by
  induction s with
  | nil => intro _; simp [bufStr]
  | cons a t ih =>
    intro h
    have ha : a ≠ 0 := h a (List.mem_cons_self a t)
    have ht := ih (fun c hc => h c (List.mem_cons_of_mem a hc))
    simp only [List.cons_append, bufStr, List.takeWhile_cons] at ht ⊢
    simp only [decide_not] at ht
    simp [ha]
    exact ht

/-- When the source string fits strictly below the `strncpy` bound, the
destination reads back as exactly the source string (the NUL made it). -/
theorem bufStr_strncpy_of_fits (dest src : List Nat) (n : Nat)
    (h : (bufStr src).length < n) :
    bufStr (strncpyBuf dest src n) = bufStr src := by
  simp only [strncpyBuf]
  rw [if_pos h]
  obtain ⟨m, hm⟩ : ∃ m, n - (bufStr src).length = m + 1 :=
    ⟨n - (bufStr src).length - 1, (Nat.succ_pred_eq_of_pos (Nat.sub_pos_of_lt h)).symm⟩
  rw [hm, List.replicate_succ, List.append_assoc, List.cons_append]
  exact bufStr_append_zero _ _ (fun c hc => bufStr_no_zero c hc)

/-- The JSON wrapper never introduces a NUL byte. -/
theorem jsonWrap_no_zero (s : List Nat) (h : ∀ c ∈ s, c ≠ 0) :
    ∀ c ∈ jsonWrap s, c ≠ 0 := by
  intro c hc
  simp only [jsonWrap, List.append_assoc, List.mem_append, List.mem_cons,
    List.not_mem_nil, or_false] at hc
  rcases hc with hc | hc | hc
  · rcases hc with rfl | rfl | rfl | rfl | rfl | rfl | rfl <;> decide
  · exact h c hc
  · rcases hc with rfl | rfl | rfl <;> decide

/-- The string read back after the Gcode-wrap sprintf is the wrapped
payload. -/
theorem bufStr_sprintfGcWrap (dest s : List Nat) (h : ∀ c ∈ s, c ≠ 0) :
    bufStr (sprintfGcWrap dest s) = jsonWrap s := by
  unfold sprintfGcWrap
  rw [List.append_assoc, List.singleton_append]
  exact bufStr_append_zero _ _ (jsonWrap_no_zero s h)

/-- A buffer whose first byte is NUL holds the empty string. -/
theorem bufStr_head_zero {b : List Nat} (he : firstByte b = 0) : bufStr b = [] := by
  cases b with
  | nil => rfl
  | cons a t =>
    simp only [firstByte, List.headD_cons] at he
    simp [bufStr, List.takeWhile_cons, he]

/-- Copying an empty source string with a positive bound leaves an empty
destination string (the bound's first byte is NUL-filled). -/
theorem bufStr_strncpy_head_zero (dest b : List Nat) (n : Nat) (hn : 0 < n)
    (he : firstByte b = 0) :
    bufStr (strncpyBuf dest b n) = [] := by
  have h0 : bufStr b = [] := bufStr_head_zero he
  simp only [strncpyBuf, h0]
  rw [if_pos (by simpa using hn)]
  obtain ⟨m, hm⟩ : ∃ m, n = m + 1 := ⟨n - 1, (Nat.succ_pred_eq_of_pos hn).symm⟩
  subst hm
  simp [bufStr, List.replicate_succ]

set_option maxRecDepth 8192

/-- Claim C4 (refuting evaluation): at input-buffer capacity 255, a
motion-command line of 246 bytes (within 8 bytes of nothing - it is 9 bytes
under capacity and below the 247-byte truncation bound, so `strncpy` copies
it whole) wraps to a 256-character JSON string whose terminated `sprintf`
write is 257 bytes: the write exceeds the buffer's capacity, because the
`-8` reserve is smaller than the 10 wrapping characters plus the NUL. -/
theorem gc_wrap_overflows_buffer :
    (bufStr csOverflowW.in_buf).length = 246
    ∧ (bufStr csOverflowW.in_buf).length < k255.INPUT_BUFFER_LEN
    ∧ gcWrapBytesWritten k255 csOverflowW = k255.INPUT_BUFFER_LEN + 2
    ∧ k255.INPUT_BUFFER_LEN < gcWrapBytesWritten k255 csOverflowW := by
  refine ⟨by decide, by decide, by decide, by decide⟩

/-- Claim C6: a completed line whose first byte case-folds to none of NUL,
`H`, `$`, `?`, `\x7b` is routed by mode: in JSON mode the motion-command
parser is never called and the JSON parser receives exactly the line wrapped
as `\x7b"gc":"<line>"\x7d` plus newline; in text mode the raw line goes to
the motion-command parser and its status plus the saved copy of the line go
to the text-response emitter. -/
theorem gcode_line_routing (k : Consts) (inp : Inputs) (cs : ControllerState)
    (cfg : Cfg)
    (h0 : toupper (firstByte cs.in_buf) ≠ 0)
    (h72 : toupper (firstByte cs.in_buf) ≠ 72)
    (h36 : toupper (firstByte cs.in_buf) ≠ 36)
    (h63 : toupper (firstByte cs.in_buf) ≠ 63)
    (h123 : toupper (firstByte cs.in_buf) ≠ 123)
    (hfit : (bufStr cs.in_buf).length < k.INPUT_BUFFER_LEN - 8) :
    (cfg.comm_mode = CommMode.jsonMode →
       (dispatchLine k inp cs cfg).2.2 =
         [Event.jsonParserCall (jsonWrap (bufStr cs.in_buf))]
       ∧ ∀ l : List Nat, Event.gcodeParserCall l ∉ (dispatchLine k inp cs cfg).2.2)
    ∧ (cfg.comm_mode = CommMode.textMode →
       (dispatchLine k inp cs cfg).2.2 =
         [Event.gcodeParserCall (bufStr cs.in_buf),
          Event.textResponse inp.gcodeParserStat
            (bufStr (strncpyBuf cs.saved_buf cs.in_buf (k.SAVED_BUFFER_LEN - 1)))]) := by
  have hob : bufStr (strncpyBuf cs.out_buf cs.in_buf (k.INPUT_BUFFER_LEN - 8)) =
      bufStr cs.in_buf := bufStr_strncpy_of_fits _ _ _ hfit
  have hib : bufStr (sprintfGcWrap cs.in_buf
      (bufStr (strncpyBuf cs.out_buf cs.in_buf (k.INPUT_BUFFER_LEN - 8)))) =
      jsonWrap (bufStr cs.in_buf) := by
    rw [hob]
    exact bufStr_sprintfGcWrap _ _ (fun c hc => bufStr_no_zero c hc)
  constructor
  · intro hm
    constructor
    · simp [dispatchLine, h0, h72, h36, h63, h123, hm, hib]
    · intro l
      simp [dispatchLine, h0, h72, h36, h63, h123, hm, hib]
  · intro hm
    simp [dispatchLine, h0, h72, h36, h63, h123, hm]

/-- Witness for C6 at the spec's scenario: the line `g1f400x100` in JSON
mode goes to the JSON parser wrapped, and never to the motion-command
parser. -/
theorem gcode_line_routing_witness :
    (dispatchLine kW inpW csGlineW cfgJsonW).2.2 =
      [Event.jsonParserCall (jsonWrap glineW)] := by
  have h := gcode_line_routing kW inpW csGlineW cfgJsonW (by decide) (by decide)
    (by decide) (by decide) (by decide) (by decide)
  exact (h.1 rfl).1

/-- The protocol switch never touches the saved-line buffer after the copy:
it always equals the `strncpy` of the incoming line. -/
theorem dispatchLine_saved (k : Consts) (inp : Inputs) (cs : ControllerState) (cfg : Cfg) :
    (dispatchLine k inp cs cfg).1.saved_buf =
      strncpyBuf cs.saved_buf cs.in_buf (k.SAVED_BUFFER_LEN - 1) := by
  by_cases h0 : toupper (firstByte cs.in_buf) = 0
  · simp [dispatchLine, h0]
  by_cases h72 : toupper (firstByte cs.in_buf) = 72
  · simp [dispatchLine, h0, h72]
  by_cases h36 : toupper (firstByte cs.in_buf) = 36 ∨ toupper (firstByte cs.in_buf) = 63
  · simp [dispatchLine, h0, h72, h36]
  by_cases h123 : toupper (firstByte cs.in_buf) = 123
  · simp [dispatchLine, h0, h72, h36, h123]
  by_cases hm : cfg.comm_mode = CommMode.jsonMode
  · simp [dispatchLine, h0, h72, h36, h123, hm]
  · simp [dispatchLine, h0, h72, h36, h123, hm]

/-- Claim C8: `_command_dispatch` returns a non-blocking result (`STAT_OK`,
never `STAT_EAGAIN`) on every path; in particular when Ready with no
completed line available it returns `OK` with the partial line left exactly
as `read_line` kept it and no collaborator called, so lower-priority idling
still runs. -/
theorem command_dispatch_nonblocking (k : Consts) (inp : Inputs)
    (cs : ControllerState) (cfg : Cfg) :
    (_command_dispatch k inp cs cfg).1 = Stat.ok
    ∧ (∀ st : Stat, ∀ b : List Nat, ∀ l : Nat,
        cs.controller_state = CtlState.ready → inp.usbConnected = true →
        inp.readLine cs.in_buf cs.linelen = (st, b, l) → st ≠ Stat.ok →
        _command_dispatch k inp cs cfg =
          (Stat.ok, { cs with in_buf := b, linelen := l }, cfg, [])) := by
  constructor
  · cases hc : inp.usbConnected with
    | false =>
      cases hs : cs.controller_state <;> simp [_command_dispatch, hc, hs]
    | true =>
      cases hs : cs.controller_state with
      | notConnected => simp [_command_dispatch, hc, hs]
      | startup => simp [_command_dispatch, hc, hs]
      | ready =>
        simp [_command_dispatch, hc, hs]
        split <;> rfl
  · intro st b l hs hc hr hne
    simp [_command_dispatch, hc, hs, hr, hne]

/-- Claim C9 helper: a Ready poll in text mode whose transport completes an
empty (NUL-first) line echoes OK with the saved empty line, clears the
cursor before protocol handling, and leaves mode and connection state
alone. -/
theorem dispatch_empty_line (k : Consts) (inp : Inputs) (cs : ControllerState)
    (cfg : Cfg) (b : List Nat) (l : Nat)
    (hk : 2 ≤ k.SAVED_BUFFER_LEN)
    (hs : cs.controller_state = CtlState.ready)
    (hm : cfg.comm_mode = CommMode.textMode)
    (hc : inp.usbConnected = true)
    (hr : inp.readLine cs.in_buf cs.linelen = (Stat.ok, b, l))
    (he : firstByte b = 0) :
    _command_dispatch k inp cs cfg =
      (Stat.ok,
       { cs with
         in_buf := b, linelen := 0,
         saved_buf := strncpyBuf cs.saved_buf b (k.SAVED_BUFFER_LEN - 1) },
       cfg, [Event.textResponse Stat.ok []]) := by
  have hn : 0 < k.SAVED_BUFFER_LEN - 1 := by omega
  have hsv : bufStr (strncpyBuf cs.saved_buf b (k.SAVED_BUFFER_LEN - 1)) = [] :=
    bufStr_strncpy_head_zero _ _ _ hn he
  have hch : toupper (firstByte b) = 0 := by rw [he]; rfl
  simp [_command_dispatch, dispatchLine, hc, hs, hr, hch, hm, hsv]

/-- Claim C9: dispatching an empty (NUL-first) line in Ready state with text
response mode emits an OK echo of the saved empty line, and doing it twice
produces two independent OK echoes with the input-line cursor equal to 0
after each dispatch - in particular the cursor value handed to the second
read is 0, cleared before protocol handling on every dispatch. -/
theorem empty_line_idempotent (k : Consts) (inp1 inp2 : Inputs)
    (cs : ControllerState) (cfg : Cfg) (b1 b2 : List Nat) (l1 l2 : Nat)
    (hk : 2 ≤ k.SAVED_BUFFER_LEN)
    (hs : cs.controller_state = CtlState.ready)
    (hm : cfg.comm_mode = CommMode.textMode)
    (hc1 : inp1.usbConnected = true) (hc2 : inp2.usbConnected = true)
    (hr1 : inp1.readLine cs.in_buf cs.linelen = (Stat.ok, b1, l1))
    (he1 : firstByte b1 = 0)
    (hr2 : inp2.readLine (_command_dispatch k inp1 cs cfg).2.1.in_buf
             (_command_dispatch k inp1 cs cfg).2.1.linelen = (Stat.ok, b2, l2))
    (he2 : firstByte b2 = 0) :
    (_command_dispatch k inp1 cs cfg).2.2.2 = [Event.textResponse Stat.ok []]
    ∧ (_command_dispatch k inp1 cs cfg).2.1.linelen = 0
    ∧ (_command_dispatch k inp2 (_command_dispatch k inp1 cs cfg).2.1
         (_command_dispatch k inp1 cs cfg).2.2.1).2.2.2 =
        [Event.textResponse Stat.ok []]
    ∧ (_command_dispatch k inp2 (_command_dispatch k inp1 cs cfg).2.1
         (_command_dispatch k inp1 cs cfg).2.2.1).2.1.linelen = 0 := by
  have h1 := dispatch_empty_line k inp1 cs cfg b1 l1 hk hs hm hc1 hr1 he1
  have h2 := dispatch_empty_line k inp2 ((_command_dispatch k inp1 cs cfg).2.1)
      ((_command_dispatch k inp1 cs cfg).2.2.1) b2 l2 hk
      (by rw [h1]; exact hs) (by rw [h1]; exact hm) hc2 hr2 he2
  refine ⟨?_, ?_, ?_, ?_⟩
  · rw [h1]
  · rw [h1]
  · rw [h2]
  · rw [h2]

/-- Witness for C9: two consecutive empty-line dispatches from the concrete
Ready/text state each echo OK and leave the cursor at 0. -/
theorem empty_line_idempotent_witness :
    (_command_dispatch kW inpEmptyW csW cfgTextW).2.2.2 =
      [Event.textResponse Stat.ok []]
    ∧ (_command_dispatch kW inpEmptyW csW cfgTextW).2.1.linelen = 0
    ∧ (_command_dispatch kW inpEmptyW (_command_dispatch kW inpEmptyW csW cfgTextW).2.1
         (_command_dispatch kW inpEmptyW csW cfgTextW).2.2.1).2.2.2 =
        [Event.textResponse Stat.ok []]
    ∧ (_command_dispatch kW inpEmptyW (_command_dispatch kW inpEmptyW csW cfgTextW).2.1
         (_command_dispatch kW inpEmptyW csW cfgTextW).2.2.1).2.1.linelen = 0 :=
  empty_line_idempotent kW inpEmptyW inpEmptyW csW cfgTextW
    [0, 0, 0, 0] [0, 0, 0, 0] 4 4 (by decide) rfl rfl rfl rfl rfl rfl rfl rfl

/-- Claim C10: a poll that performs the NotConnected-to-Startup or the
Startup-to-Ready transition does not return after the transition: it falls
through into the protocol switch, dispatching the bytes currently in the
input buffer (stale, since read_line did not run) and overwriting the saved
echo buffer with those bytes; the NotConnected transition additionally emits
the queue flush and ready message first. -/
theorem transition_poll_dispatches_stale (k : Consts) (inp : Inputs)
    (cs : ControllerState) (cfg : Cfg)
    (hc : inp.usbConnected = true)
    (hs : cs.controller_state ≠ CtlState.ready) :
    _command_dispatch k inp cs cfg =
      (Stat.ok,
       (dispatchLine k inp { cs with controller_state :=
          if cs.controller_state = CtlState.notConnected then CtlState.startup
          else CtlState.ready } cfg).1,
       (dispatchLine k inp { cs with controller_state :=
          if cs.controller_state = CtlState.notConnected then CtlState.startup
          else CtlState.ready } cfg).2.1,
       (if cs.controller_state = CtlState.notConnected then
          [Event.queueFlush, Event.systemReadyMsg] else []) ++
         (dispatchLine k inp { cs with controller_state :=
            if cs.controller_state = CtlState.notConnected then CtlState.startup
            else CtlState.ready } cfg).2.2)
    ∧ (_command_dispatch k inp cs cfg).2.1.saved_buf =
        strncpyBuf cs.saved_buf cs.in_buf (k.SAVED_BUFFER_LEN - 1) := by
  cases hcs : cs.controller_state with
  | ready => exact absurd hcs hs
  | notConnected =>
    constructor
    · simp [_command_dispatch, hc, hcs]
    · simp [_command_dispatch, hc, hcs, dispatchLine_saved]
  | startup =>
    constructor
    · simp [_command_dispatch, hc, hcs]
    · simp [_command_dispatch, hc, hcs, dispatchLine_saved]

/-- Witness for C10: the NotConnected-to-Startup poll with a stale
Gcode-looking line in the input buffer overwrites the saved buffer with
those stale bytes. -/
theorem transition_poll_dispatches_stale_witness :
    (_command_dispatch kW inpW csNCW cfgTextW).2.1.saved_buf =
      strncpyBuf csNCW.saved_buf csNCW.in_buf (kW.SAVED_BUFFER_LEN - 1) :=
  (transition_poll_dispatches_stale kW inpW csNCW cfgTextW rfl (by decide)).2
